import Mathlib

/-!
Verification of the hydrophonitor audio-logger recorder
(`src/audio-logger/src/recorder.rs`).

The recorder captures audio from an input device and writes it to WAV files.
A `Recorder` holds a mutex-guarded slot (`writer : WriteHandle`) with at most
one open `hound::WavWriter`; the hardware callback feeds sample buffers to
the slot through `write_input_data` with a non-blocking `try_lock`; the
controller thread installs a writer (`init_writer`), starts the stream,
waits, drops the stream and finalizes the writer (`record` / `record_secs`);
`batch_recording` loops `record_secs` while the batch interrupt signal is
unset.

The embedding is a state-passing rendition of that code.  External effects
are made explicit:
  * fallible collaborator calls (file creation, stream build, stream play,
    finalize) are driven by boolean environment flags (`SegEnv`, `InitEnv`);
  * the buffers delivered by the audio-driver thread during a segment, and
    whether each delivery wins the `try_lock`, are an explicit list of
    `(buffer, lock acquired)` pairs folded over the slot;
  * the process-wide interrupt state (module `input_handling`, not part of
    the sources verified here) is an oracle `Nat → Bool` giving the value of
    the signal at each observation point;
  * per-sample write failures of `hound` are driven by an oracle on the
    number of samples already written;
  * time is idealized: each iteration of the polling loop in `record_secs`
    sleeps exactly 500 ms.
-/

namespace AudioLogger

/-- `cpal::SampleFormat`: the closed set of sample formats of the stream. -/
inductive SampleFormat
  | F32
  | I16
  | U16
deriving DecidableEq, Repr

/-- `cpal::StreamConfig` as used here: the user-requested configuration. -/
structure StreamConfig where
  sample_rate : Nat
  channels : Nat
  buffer_size : Nat
deriving DecidableEq, Repr

/-- `cpal::SupportedStreamConfig`: the device default configuration. -/
structure SupportedStreamConfig where
  sample_format : SampleFormat
  sample_rate : Nat
  channels : Nat
deriving DecidableEq, Repr

/-- `hound::WavSpec`: the WAV header fields. -/
structure WavSpec where
  channels : Nat
  sample_rate : Nat
  bits_per_sample : Nat
  isFloat : Bool
deriving DecidableEq, Repr

/-- Model of an open `hound::WavWriter`: the file it is bound to, the spec
its header was created with, and the samples appended so far. -/
structure WavWriter where
  filename : String
  spec : WavSpec
  samples : List Int
deriving DecidableEq, Repr

/-- `writer.write_sample(sample)`: appends one sample; may fail with an I/O
error.  Failure is driven by the oracle `failAt`, indexed by the number of
samples already written; on failure the writer keeps its previous state. -/
def write_sample (failAt : Nat → Bool) (w : WavWriter) (s : Int) :
    Except Unit WavWriter :=
  if failAt w.samples.length then Except.error ()
  else Except.ok { w with samples := w.samples ++ [s] }

/-- One step of the loop in `write_input_data`:
`writer.write_sample(sample).ok()` — the result is discarded, so on failure
the writer simply keeps its previous state and the loop continues. -/
def writeStep (failAt : Nat → Bool) (w : WavWriter) (s : Int) : WavWriter :=
  match write_sample failAt w s with
  | Except.ok w' => w'
  | Except.error _ => w

/-- The inner loop of `write_input_data`: for each raw sample, convert it
(`cpal::Sample::from`, modelled by `conv`) and `write_sample(..).ok()` it. -/
def writeBuf (failAt : Nat → Bool) (conv : Int → Int) (input : List Int)
    (w : WavWriter) : WavWriter :=
  input.foldl (fun w s => writeStep failAt w (conv s)) w

/-- `write_input_data` (recorder.rs lines 149-162), run on the audio-driver
thread for one delivered buffer.  `lockOk` is whether `writer.try_lock()`
succeeds at this delivery.  If the lock is unavailable, or the slot holds no
writer, the buffer is dropped and the slot is unchanged; otherwise every
sample is converted and written, per-sample errors swallowed.  The function
is total: it never blocks and returns no error. -/
def write_input_data (failAt : Nat → Bool) (conv : Int → Int)
    (input : List Int) (lockOk : Bool) (slot : Option WavWriter) :
    Option WavWriter :=
  if lockOk then
    match slot with
    | some w => some (writeBuf failAt conv input w)
    | none => none
  else slot

/-- The sequence of buffer deliveries during one segment, applied to the
sink slot in order: each entry is (buffer, whether the callback won the
try_lock at that delivery). -/
def applyCbs (failAt : Nat → Bool) (conv : Int → Int)
    (cbs : List (List Int × Bool)) (slot : Option WavWriter) :
    Option WavWriter :=
  cbs.foldl (fun s bi => write_input_data failAt conv bi.1 bi.2 s) slot

/-- Elapsed whole seconds (`Instant::elapsed().as_secs()`) after `k` sleeps
of 500 ms, under the idealized exact clock. -/
def elapsedSecs (k : Nat) : Nat := 500 * k / 1000

/-- The blocking wait of `record_secs` (recorder.rs lines 137-142):
`loop { sleep(500ms); if now.elapsed().as_secs() >= secs { break; } }`.
Returns the number of 500 ms sleeps performed, given fuel bounding the
iterations (the real loop needs no fuel; `2 * secs + 1` always suffices).
Note the loop body reads only the clock: the interrupt state is not
consulted anywhere in it. -/
def waitLoop (secs : Nat) : Nat → Nat → Nat
  | 0, k => k
  | fuel + 1, k =>
    if secs ≤ elapsedSecs (k + 1) then k + 1 else waitLoop secs fuel (k + 1)

/-- Number of 500 ms polls `record_secs secs` performs. -/
def segmentPolls (secs : Nat) : Nat := waitLoop secs (2 * secs + 1) 0

/-- The `Recorder` struct (recorder.rs lines 12-22).  `writer` is the
mutex-guarded sink slot; the `interrupt_handles` field reads process-wide
signal state and is modelled by the oracles passed to the operations;
`device` is the opaque selected input device. -/
structure Recorder where
  writer : Option WavWriter
  default_config : SupportedStreamConfig
  user_config : StreamConfig
  device : Nat
  spec : WavSpec
  name : String
  path : String
  current_file : String
deriving DecidableEq, Repr

/-- Errors surfaced by the recorder operations (`anyhow::Error` in the
source, split by originating step). -/
inductive RecError
  | initInterrupt
  | initHost
  | initDevice
  | initDefaultConfig
  | initUserConfig
  | initWavSpec
  | encodeCreate
  | streamBuild
  | streamPlay
  | finalize
  | unwrapPanic
deriving DecidableEq, Repr

/-- Observable controller-thread events of one segment, in program order. -/
inductive Event
  | install
  | play
  | streamDrop
  | sinkFinalize
deriving DecidableEq, Repr

/-- A finalized output file: name, header spec, samples, and the wall-clock
length in milliseconds of the segment that produced it. -/
structure FileRecord where
  filename : String
  spec : WavSpec
  samples : List Int
  durationMs : Nat
deriving DecidableEq, Repr

/-- Result of one `record` / `record_secs` call: the returned
`Result<(), Error>`, the recorder state after the call, the controller-side
event trace, and the finalized file when one was produced. -/
structure SegOut where
  res : Except RecError Unit
  recorder : Recorder
  events : List Event
  file : Option FileRecord
deriving Repr

/-- Result of one `batch_recording` call. -/
structure BatchOut where
  res : Except RecError Unit
  recorder : Recorder
  files : List FileRecord
deriving Repr

/-- The fallible external steps of one segment: `WavWriter::create`,
`build_input_stream`, `Stream::play`, `WavWriter::finalize`. -/
structure SegEnv where
  createOk : Bool
  buildOk : Bool
  playOk : Bool
  finalizeOk : Bool
deriving DecidableEq, Repr

/-- All four external steps of a segment succeed. -/
def segOk (env : SegEnv) : Bool :=
  env.createOk && env.buildOk && env.playOk && env.finalizeOk

/-- The error a segment fails with when `segOk` is false: the first failing
step wins, matching the `?` chain in `record` / `record_secs`. -/
def segError (env : SegEnv) : RecError :=
  if env.createOk = false then RecError.encodeCreate
  else if env.buildOk = false then RecError.streamBuild
  else if env.playOk = false then RecError.streamPlay
  else RecError.finalize

/-- Modelled from the spec: `get_filename` (module `getters`, not among the
sources verified here) derives the output file name from the logical name,
the output directory and a per-segment generation timestamp, unique across
the segments of one run; `stamp` stands for that timestamp. -/
def get_filename (name path : String) (stamp : Nat) : String :=
  path ++ "/" ++ name ++ "-" ++ toString stamp ++ ".wav"

/-- `Recorder::init_writer` (recorder.rs lines 78-83): generate a filename,
remember it in `current_file`, then create a fresh `WavWriter` with the
recorder's one spec and install it in the slot.  `current_file` is assigned
before the fallible create, so it is updated even on the failure path. -/
def init_writer (createOk : Bool) (stamp : Nat) (rec : Recorder) :
    Except RecError Unit × Recorder :=
  let filename := get_filename rec.name rec.path stamp
  let rec1 := { rec with current_file := filename }
  if createOk then
    (Except.ok (),
     { rec1 with writer := some { filename := filename, spec := rec.spec, samples := [] } })
  else (Except.error RecError.encodeCreate, rec1)

/-- `Recorder::record` (recorder.rs lines 114-124), continuous mode:
install a writer, build and play the stream, block on
`interrupt_handles.stream_wait()` until the segment-stop signal (modelled
from the spec: `input_handling` is not among the sources verified here;
`waitedMs` is the wall time until the signal fired), then drop the stream
and `take().unwrap().finalize()` the writer.  While the stream plays, the
driver thread performs the deliveries `cbs` against the slot. -/
def record (failAt : Nat → Bool) (conv : Int → Int) (env : SegEnv)
    (cbs : List (List Int × Bool)) (stamp : Nat) (waitedMs : Nat)
    (rec : Recorder) : SegOut :=
  match init_writer env.createOk stamp rec with
  | (Except.error e, rec1) => { res := Except.error e, recorder := rec1, events := [], file := none }
  | (Except.ok _, rec1) =>
    if env.buildOk = false then
      { res := Except.error RecError.streamBuild, recorder := rec1,
        events := [Event.install], file := none }
    else if env.playOk = false then
      -- the stream value is dropped when the play error propagates out
      { res := Except.error RecError.streamPlay, recorder := rec1,
        events := [Event.install, Event.streamDrop], file := none }
    else
      -- stream_wait(); meanwhile the callbacks run; then drop(stream)
      let rec2 := { rec1 with writer := none }
      match applyCbs failAt conv cbs rec1.writer with
      | none =>
        -- self.writer.lock().unwrap().take().unwrap() would panic here
        { res := Except.error RecError.unwrapPanic, recorder := rec2,
          events := [Event.install, Event.play, Event.streamDrop], file := none }
      | some w =>
        if env.finalizeOk then
          { res := Except.ok (), recorder := rec2,
            events := [Event.install, Event.play, Event.streamDrop, Event.sinkFinalize],
            file := some { filename := w.filename, spec := w.spec,
                           samples := w.samples, durationMs := waitedMs } }
        else
          { res := Except.error RecError.finalize, recorder := rec2,
            events := [Event.install, Event.play, Event.streamDrop, Event.sinkFinalize],
            file := none }

/-- `Recorder::record_secs` (recorder.rs lines 130-146), timed mode: as
`record`, but the blocking wait is the 500 ms polling loop `waitLoop`,
which reads only the elapsed time.  `segStop` is the segment-stop signal
over time (value at each poll); the loop body never reads it, which is why
it does not appear in the wait. -/
def record_secs (failAt : Nat → Bool) (conv : Int → Int) (env : SegEnv)
    (cbs : List (List Int × Bool)) (stamp : Nat) (segStop : Nat → Bool)
    (secs : Nat) (rec : Recorder) : SegOut :=
  match init_writer env.createOk stamp rec with
  | (Except.error e, rec1) => { res := Except.error e, recorder := rec1, events := [], file := none }
  | (Except.ok _, rec1) =>
    if env.buildOk = false then
      { res := Except.error RecError.streamBuild, recorder := rec1,
        events := [Event.install], file := none }
    else if env.playOk = false then
      { res := Except.error RecError.streamPlay, recorder := rec1,
        events := [Event.install, Event.streamDrop], file := none }
    else
      let polls := segmentPolls secs
      let rec2 := { rec1 with writer := none }
      match applyCbs failAt conv cbs rec1.writer with
      | none =>
        { res := Except.error RecError.unwrapPanic, recorder := rec2,
          events := [Event.install, Event.play, Event.streamDrop], file := none }
      | some w =>
        if env.finalizeOk then
          { res := Except.ok (), recorder := rec2,
            events := [Event.install, Event.play, Event.streamDrop, Event.sinkFinalize],
            file := some { filename := w.filename, spec := w.spec,
                           samples := w.samples, durationMs := 500 * polls } }
        else
          { res := Except.error RecError.finalize, recorder := rec2,
            events := [Event.install, Event.play, Event.streamDrop, Event.sinkFinalize],
            file := none }

/-- `batch_recording` (recorder.rs lines 164-169):
`while rec.interrupt_handles.batch_is_running() { rec.record_secs(secs)?; }`.
`running i` is the value of the batch-is-running check before iteration `i`
(`batch_is_running` of module `input_handling`, modelled from the spec as
reading the level-triggered batch-stop signal); `envs i` and `cbs i` are
iteration `i`'s environment and deliveries; the iteration index also serves
as the filename stamp.  `fuel` bounds the iterations examined (the source
loop has no bound; it runs until the signal stops it). -/
def batch_recording (failAt : Nat → Bool) (conv : Int → Int)
    (envs : Nat → SegEnv) (cbs : Nat → List (List Int × Bool))
    (running : Nat → Bool) (segStop : Nat → Bool) (secs : Nat) :
    Nat → Nat → Recorder → BatchOut
  | 0, _, rec => { res := Except.ok (), recorder := rec, files := [] }
  | fuel + 1, i, rec =>
    if running i then
      let out := record_secs failAt conv (envs i) (cbs i) i segStop secs rec
      match out.res with
      | Except.error e => { res := Except.error e, recorder := out.recorder, files := out.file.toList }
      | Except.ok _ =>
        let rest := batch_recording failAt conv envs cbs running segStop secs fuel (i + 1) out.recorder
        { res := rest.res, recorder := rest.recorder, files := out.file.toList ++ rest.files }
    else { res := Except.ok (), recorder := rec, files := [] }

/-- Number of iterations the batch loop body runs: consecutive `true`
values of `running` from `i`, capped by `fuel`. -/
def batchIterations (running : Nat → Bool) : Nat → Nat → Nat
  | 0, _ => 0
  | fuel + 1, i => if running i then batchIterations running fuel (i + 1) + 1 else 0

/-- Bits per sample of a `cpal::SampleFormat` (the `U16` input path writes
`i16` samples, see `create_stream`). -/
def formatBits (f : SampleFormat) : Nat :=
  match f with
  | SampleFormat.F32 => 32
  | SampleFormat.I16 => 16
  | SampleFormat.U16 => 16

/-- Modelled from the spec: `get_user_config` (module `getters`, not among
the sources verified here) builds the user stream configuration from the
requested sample rate, channel count and buffer size. -/
def get_user_config (sample_rate : Nat) (channels : Nat) (buffer_size : Nat) :
    StreamConfig :=
  { sample_rate := sample_rate, channels := channels, buffer_size := buffer_size }

/-- Modelled from the spec: `get_wav_spec` (module `getters`, not among the
sources verified here) derives the WAV header spec deterministically from
the device default configuration and the user configuration. -/
def get_wav_spec (dflt : SupportedStreamConfig) (user : StreamConfig) : WavSpec :=
  { channels := user.channels, sample_rate := user.sample_rate,
    bits_per_sample := formatBits dflt.sample_format,
    isFloat := match dflt.sample_format with
               | SampleFormat.F32 => true
               | _ => false }

/-- Arguments of `Recorder::init`. -/
structure InitArgs where
  name : String
  path : String
  host : Nat
  sample_rate : Nat
  channels : Nat
  buffer_size : Nat
deriving DecidableEq, Repr

/-- The fallible external steps of `Recorder::init`, with the values the
successful steps return: `InterruptHandles::new`, `get_host`, `get_device`,
`get_default_config`, `get_user_config`, `get_wav_spec` (all but the struct
construction live in modules not among the sources verified here and are
modelled from the spec as fallible collaborator calls). -/
structure InitEnv where
  interruptOk : Bool
  hostOk : Bool
  deviceOk : Bool
  defaultOk : Bool
  userOk : Bool
  specOk : Bool
  device : Nat
  defaultConfig : SupportedStreamConfig
deriving DecidableEq, Repr

/-- All six fallible steps of `init` succeed. -/
def initOk (env : InitEnv) : Bool :=
  env.interruptOk && env.hostOk && env.deviceOk && env.defaultOk &&
    env.userOk && env.specOk

/-- `Recorder::init` (recorder.rs lines 38-76): the `?` chain over the six
fallible steps; on full success, the `Recorder` is constructed with an
empty sink slot, an empty current filename and the once-computed WAV
spec. -/
def init (args : InitArgs) (env : InitEnv) : Except RecError Recorder :=
  if env.interruptOk = false then Except.error RecError.initInterrupt
  else if env.hostOk = false then Except.error RecError.initHost
  else if env.deviceOk = false then Except.error RecError.initDevice
  else if env.defaultOk = false then Except.error RecError.initDefaultConfig
  else if env.userOk = false then Except.error RecError.initUserConfig
  else
    let user := get_user_config args.sample_rate args.channels args.buffer_size
    if env.specOk = false then Except.error RecError.initWavSpec
    else
      Except.ok
        { writer := none,
          default_config := env.defaultConfig,
          user_config := user,
          device := env.device,
          spec := get_wav_spec env.defaultConfig user,
          name := args.name,
          path := args.path,
          current_file := "" }

/-- Finalize events are preceded by a stream-drop event: scanning the trace
left to right, a `sinkFinalize` is admissible only once a `streamDrop` has
been seen. -/
def dropBeforeFinalize (evs : List Event) : Bool :=
  (evs.foldl (fun st e =>
    match e with
    | Event.streamDrop => (true, st.2)
    | Event.sinkFinalize => (st.1, st.2 && st.1)
    | _ => st) (false, true)).2

/-- A sample environment where every external step succeeds. -/
def envAllOk : SegEnv :=
  { createOk := true, buildOk := true, playOk := true, finalizeOk := true }

/-- A sample environment where stream building fails. -/
def envBuildFail : SegEnv :=
  { createOk := true, buildOk := false, playOk := true, finalizeOk := true }

/-- A per-sample-write oracle under which every write succeeds. -/
def noWriteFail : Nat → Bool := fun _ => false

/-- A sample recorder, as `init` would construct it for an F32 device. -/
def rec0 : Recorder :=
  { writer := none,
    default_config := { sample_format := SampleFormat.F32, sample_rate := 44100, channels := 1 },
    user_config := { sample_rate := 44100, channels := 1, buffer_size := 1024 },
    device := 0,
    spec := { channels := 1, sample_rate := 44100, bits_per_sample := 32, isFloat := true },
    name := "hydro",
    path := "out",
    current_file := "" }

/-- A segment-stop signal that becomes (and stays) set 2 s into the
segment: at the k-th poll, 500·k ms have elapsed. -/
def stopAtTwoSecs : Nat → Bool := fun k => decide (2000 ≤ 500 * k)

end AudioLogger

namespace AudioLogger

theorem writeStep_filename (failAt : Nat → Bool) (w : WavWriter) (s : Int) :
    (writeStep failAt w s).filename = w.filename := by
  by_cases h : failAt w.samples.length <;> simp [writeStep, write_sample, h]

theorem writeStep_spec (failAt : Nat → Bool) (w : WavWriter) (s : Int) :
    (writeStep failAt w s).spec = w.spec := by
  by_cases h : failAt w.samples.length <;> simp [writeStep, write_sample, h]

theorem writeBuf_filename_spec (failAt : Nat → Bool) (conv : Int → Int) :
    ∀ (input : List Int) (w : WavWriter),
      (writeBuf failAt conv input w).filename = w.filename ∧
      (writeBuf failAt conv input w).spec = w.spec := by
  intro input
  induction input with
  | nil => intro w; exact ⟨rfl, rfl⟩
  | cons s rest ih =>
    intro w
    have hstep : writeBuf failAt conv (s :: rest) w =
        writeBuf failAt conv rest (writeStep failAt w (conv s)) := rfl
    rw [hstep]
    rcases ih (writeStep failAt w (conv s)) with ⟨h1, h2⟩
    exact ⟨h1.trans (writeStep_filename failAt w (conv s)),
           h2.trans (writeStep_spec failAt w (conv s))⟩

theorem write_input_data_isSome (failAt : Nat → Bool) (conv : Int → Int)
    (input : List Int) (lockOk : Bool) (slot : Option WavWriter) :
    (write_input_data failAt conv input lockOk slot).isSome = slot.isSome := by
  unfold write_input_data
  cases lockOk with
  | false => simp
  | true => cases slot <;> simp

theorem applyCbs_none (failAt : Nat → Bool) (conv : Int → Int) :
    ∀ (cbs : List (List Int × Bool)),
      applyCbs failAt conv cbs none = none := by
  intro cbs
  induction cbs with
  | nil => rfl
  | cons b rest ih =>
    have : applyCbs failAt conv (b :: rest) none =
        applyCbs failAt conv rest (write_input_data failAt conv b.1 b.2 none) := rfl
    rw [this]
    cases hb : b.2 with
    | false => simpa [write_input_data, hb] using ih
    | true => simpa [write_input_data, hb] using ih

theorem applyCbs_some (failAt : Nat → Bool) (conv : Int → Int) :
    ∀ (cbs : List (List Int × Bool)) (w : WavWriter),
      ∃ w', applyCbs failAt conv cbs (some w) = some w' ∧
        w'.filename = w.filename ∧ w'.spec = w.spec := by
  intro cbs
  induction cbs with
  | nil => intro w; exact ⟨w, rfl, rfl, rfl⟩
  | cons b rest ih =>
    intro w
    have hstep : applyCbs failAt conv (b :: rest) (some w) =
        applyCbs failAt conv rest (write_input_data failAt conv b.1 b.2 (some w)) := rfl
    cases hb : b.2 with
    | false =>
      rcases ih w with ⟨w', hw', h1, h2⟩
      exact ⟨w', by rw [hstep]; simpa [write_input_data, hb] using hw', h1, h2⟩
    | true =>
      rcases ih (writeBuf failAt conv b.1 w) with ⟨w', hw', h1, h2⟩
      rcases writeBuf_filename_spec failAt conv b.1 w with ⟨hf, hs⟩
      exact ⟨w', by rw [hstep]; simpa [write_input_data, hb] using hw',
             h1.trans hf, h2.trans hs⟩

theorem elapsedSecs_eq (k : Nat) : elapsedSecs k = k / 2 := by
  unfold elapsedSecs
  omega

theorem waitLoop_eq (secs : Nat) :
    ∀ (fuel j : Nat), j < 2 * secs → 2 * secs - j ≤ fuel →
      waitLoop secs fuel j = 2 * secs := by
  intro fuel
  induction fuel with
  | zero => intro j hj hf; omega
  | succ f ih =>
    intro j hj hf
    unfold waitLoop
    rw [elapsedSecs_eq]
    by_cases hcond : secs ≤ (j + 1) / 2
    · have h2 : 2 * secs ≤ j + 1 := by omega
      have : j + 1 = 2 * secs := by omega
      simp [hcond, this]
    · have h2 : j + 1 < 2 * secs := by omega
      simp only [hcond, if_false]
      exact ih (j + 1) h2 (by omega)

theorem segmentPolls_eq (secs : Nat) : segmentPolls secs = max 1 (2 * secs) := by
  cases secs with
  | zero => rfl
  | succ n =>
    unfold segmentPolls
    rw [waitLoop_eq (n + 1) (2 * (n + 1) + 1) 0 (by omega) (by omega)]
    omega

theorem record_secs_of_segOk (failAt : Nat → Bool) (conv : Int → Int) (env : SegEnv)
    (cbs : List (List Int × Bool)) (stamp : Nat) (segStop : Nat → Bool)
    (secs : Nat) (rec : Recorder) (h : segOk env = true) :
    ∃ w : WavWriter,
      w.filename = get_filename rec.name rec.path stamp ∧ w.spec = rec.spec ∧
      record_secs failAt conv env cbs stamp segStop secs rec =
        { res := Except.ok (),
          recorder := { rec with
            current_file := get_filename rec.name rec.path stamp,
            writer := none },
          events := [Event.install, Event.play, Event.streamDrop, Event.sinkFinalize],
          file := some { filename := w.filename, spec := w.spec, samples := w.samples,
                         durationMs := 500 * segmentPolls secs } } := by
  simp only [segOk, Bool.and_eq_true] at h
  obtain ⟨⟨⟨hc, hb⟩, hp⟩, hf⟩ := h
  rcases applyCbs_some failAt conv cbs
      ⟨get_filename rec.name rec.path stamp, rec.spec, []⟩ with ⟨w, hw, hwf, hws⟩
  refine ⟨w, hwf, hws, ?_⟩
  unfold record_secs init_writer
  simp only [hc, hb, hp, hf, if_true, Bool.true_eq_false, if_false, ite_false, ite_true]
  simp only [hw]

theorem record_secs_of_segFail (failAt : Nat → Bool) (conv : Int → Int) (env : SegEnv)
    (cbs : List (List Int × Bool)) (stamp : Nat) (segStop : Nat → Bool)
    (secs : Nat) (rec : Recorder) (h : segOk env = false) :
    (record_secs failAt conv env cbs stamp segStop secs rec).res =
      Except.error (segError env) ∧
    (record_secs failAt conv env cbs stamp segStop secs rec).file = none := by
  by_cases hc : env.createOk
  · by_cases hb : env.buildOk
    · by_cases hp : env.playOk
      · by_cases hf : env.finalizeOk
        · exfalso
          simp [segOk, hc, hb, hp, hf] at h
        · rcases applyCbs_some failAt conv cbs
              ⟨get_filename rec.name rec.path stamp, rec.spec, []⟩ with ⟨w, hw, _, _⟩
          unfold record_secs init_writer
          simp only [hc, hb, hp, hf, if_true, Bool.true_eq_false, if_false,
            ite_false, ite_true]
          simp only [hw]
          simp [segError, hc, hb, hp, hf]
      · unfold record_secs init_writer
        simp only [Bool.not_eq_true] at hp
        simp [hc, hb, hp, segError]
    · unfold record_secs init_writer
      simp only [Bool.not_eq_true] at hb
      simp [hc, hb, segError]
  · unfold record_secs init_writer
    simp only [Bool.not_eq_true] at hc
    simp [hc, segError]

theorem record_of_segOk (failAt : Nat → Bool) (conv : Int → Int) (env : SegEnv)
    (cbs : List (List Int × Bool)) (stamp : Nat) (waitedMs : Nat)
    (rec : Recorder) (h : segOk env = true) :
    ∃ w : WavWriter,
      w.filename = get_filename rec.name rec.path stamp ∧ w.spec = rec.spec ∧
      record failAt conv env cbs stamp waitedMs rec =
        { res := Except.ok (),
          recorder := { rec with
            current_file := get_filename rec.name rec.path stamp,
            writer := none },
          events := [Event.install, Event.play, Event.streamDrop, Event.sinkFinalize],
          file := some { filename := w.filename, spec := w.spec, samples := w.samples,
                         durationMs := waitedMs } } := by
  simp only [segOk, Bool.and_eq_true] at h
  obtain ⟨⟨⟨hc, hb⟩, hp⟩, hf⟩ := h
  rcases applyCbs_some failAt conv cbs
      ⟨get_filename rec.name rec.path stamp, rec.spec, []⟩ with ⟨w, hw, hwf, hws⟩
  refine ⟨w, hwf, hws, ?_⟩
  unfold record init_writer
  simp only [hc, hb, hp, hf, if_true, Bool.true_eq_false, if_false, ite_false, ite_true]
  simp only [hw]

theorem record_of_segFail (failAt : Nat → Bool) (conv : Int → Int) (env : SegEnv)
    (cbs : List (List Int × Bool)) (stamp : Nat) (waitedMs : Nat)
    (rec : Recorder) (h : segOk env = false) :
    (record failAt conv env cbs stamp waitedMs rec).res =
      Except.error (segError env) ∧
    (record failAt conv env cbs stamp waitedMs rec).file = none := by
  by_cases hc : env.createOk
  · by_cases hb : env.buildOk
    · by_cases hp : env.playOk
      · by_cases hf : env.finalizeOk
        · exfalso
          simp [segOk, hc, hb, hp, hf] at h
        · rcases applyCbs_some failAt conv cbs
              ⟨get_filename rec.name rec.path stamp, rec.spec, []⟩ with ⟨w, hw, _, _⟩
          unfold record init_writer
          simp only [hc, hb, hp, hf, if_true, Bool.true_eq_false, if_false,
            ite_false, ite_true]
          simp only [hw]
          simp [segError, hc, hb, hp, hf]
      · unfold record init_writer
        simp only [Bool.not_eq_true] at hp
        simp [hc, hb, hp, segError]
    · unfold record init_writer
      simp only [Bool.not_eq_true] at hb
      simp [hc, hb, segError]
  · unfold record init_writer
    simp only [Bool.not_eq_true] at hc
    simp [hc, segError]

theorem segError_ne_unwrapPanic (env : SegEnv) :
    segError env ≠ RecError.unwrapPanic := by
  unfold segError
  split
  · simp
  · split
    · simp
    · split <;> simp

theorem writeBuf_allFail (conv : Int → Int) :
    ∀ (input : List Int) (w : WavWriter),
      writeBuf (fun _ => true) conv input w = w := by
  intro input
  induction input with
  | nil => intro w; rfl
  | cons s rest ih =>
    intro w
    have hstep : writeBuf (fun _ => true) conv (s :: rest) w =
        writeBuf (fun _ => true) conv rest (writeStep (fun _ => true) w (conv s)) := rfl
    rw [hstep]
    have : writeStep (fun _ => true) w (conv s) = w := by
      simp [writeStep, write_sample]
    rw [this]
    exact ih w

theorem record_spec_preserved (failAt : Nat → Bool) (conv : Int → Int) (env : SegEnv)
    (cbs : List (List Int × Bool)) (stamp : Nat) (waitedMs : Nat) (rec : Recorder) :
    (record failAt conv env cbs stamp waitedMs rec).recorder.spec = rec.spec := by
  unfold record init_writer
  by_cases hc : env.createOk
  · by_cases hb : env.buildOk
    · by_cases hp : env.playOk
      · cases happ : applyCbs failAt conv cbs
            (some ⟨get_filename rec.name rec.path stamp, rec.spec, []⟩) with
        | none =>
          simp only [hc, hb, hp, if_true, Bool.true_eq_false, if_false,
            ite_false, ite_true]
          simp only [happ]
        | some w =>
          by_cases hf : env.finalizeOk
          · simp only [hc, hb, hp, hf, if_true, Bool.true_eq_false, if_false,
              ite_false, ite_true]
            simp only [happ]
          · simp only [hc, hb, hp, if_true, Bool.true_eq_false, if_false,
              ite_false, ite_true]
            simp only [happ, hf]
            simp
      · simp only [Bool.not_eq_true] at hp
        simp [hc, hb, hp]
    · simp only [Bool.not_eq_true] at hb
      simp [hc, hb]
  · simp only [Bool.not_eq_true] at hc
    simp [hc]

theorem record_secs_spec_preserved (failAt : Nat → Bool) (conv : Int → Int)
    (env : SegEnv) (cbs : List (List Int × Bool)) (stamp : Nat)
    (segStop : Nat → Bool) (secs : Nat) (rec : Recorder) :
    (record_secs failAt conv env cbs stamp segStop secs rec).recorder.spec = rec.spec := by
  unfold record_secs init_writer
  by_cases hc : env.createOk
  · by_cases hb : env.buildOk
    · by_cases hp : env.playOk
      · cases happ : applyCbs failAt conv cbs
            (some ⟨get_filename rec.name rec.path stamp, rec.spec, []⟩) with
        | none =>
          simp only [hc, hb, hp, if_true, Bool.true_eq_false, if_false,
            ite_false, ite_true]
          simp only [happ]
        | some w =>
          by_cases hf : env.finalizeOk
          · simp only [hc, hb, hp, hf, if_true, Bool.true_eq_false, if_false,
              ite_false, ite_true]
            simp only [happ]
          · simp only [hc, hb, hp, if_true, Bool.true_eq_false, if_false,
              ite_false, ite_true]
            simp only [happ, hf]
            simp
      · simp only [Bool.not_eq_true] at hp
        simp [hc, hb, hp]
    · simp only [Bool.not_eq_true] at hb
      simp [hc, hb]
  · simp only [Bool.not_eq_true] at hc
    simp [hc]

/-- C3: for every buffer delivered to the callback write path
(`write_input_data`), only a non-blocking lock acquisition is attempted;
if the lock is unavailable or no encoder is installed the whole buffer is
silently dropped (the slot is returned unchanged), and per-sample write
errors are swallowed: even when every single write fails, the call returns
normally with the writer still installed and unchanged.  The operation is a
total function into the new slot state: it never blocks and never
propagates an error to its caller. -/
theorem C3_try_write_drops_and_swallows :
    (∀ (failAt : Nat → Bool) (conv : Int → Int) (input : List Int)
       (slot : Option WavWriter),
       write_input_data failAt conv input false slot = slot) ∧
    (∀ (failAt : Nat → Bool) (conv : Int → Int) (input : List Int) (lockOk : Bool),
       write_input_data failAt conv input lockOk none = none) ∧
    (∀ (conv : Int → Int) (input : List Int) (w : WavWriter),
       write_input_data (fun _ => true) conv input true (some w) = some w) := by
  refine ⟨?_, ?_, ?_⟩
  · intro failAt conv input slot
    simp [write_input_data]
  · intro failAt conv input lockOk
    cases lockOk <;> simp [write_input_data]
  · intro conv input w
    simp [write_input_data, writeBuf_allFail]

/-- C9: when the finalize step of `record` or `record_secs` is reached, the
sink slot always holds an encoder, so `take().unwrap()` never panics: the
callback write path never removes the writer (it preserves whether the slot
is occupied), and neither operation can return the panic outcome. -/
theorem C9_finalize_unwrap_never_panics :
    (∀ (failAt : Nat → Bool) (conv : Int → Int) (input : List Int)
       (lockOk : Bool) (slot : Option WavWriter),
       (write_input_data failAt conv input lockOk slot).isSome = slot.isSome) ∧
    (∀ (failAt : Nat → Bool) (conv : Int → Int) (env : SegEnv)
       (cbs : List (List Int × Bool)) (stamp waitedMs : Nat) (rec : Recorder),
       (record failAt conv env cbs stamp waitedMs rec).res ≠
         Except.error RecError.unwrapPanic) ∧
    (∀ (failAt : Nat → Bool) (conv : Int → Int) (env : SegEnv)
       (cbs : List (List Int × Bool)) (stamp : Nat) (segStop : Nat → Bool)
       (secs : Nat) (rec : Recorder),
       (record_secs failAt conv env cbs stamp segStop secs rec).res ≠
         Except.error RecError.unwrapPanic) := by
  refine ⟨write_input_data_isSome, ?_, ?_⟩
  · intro failAt conv env cbs stamp waitedMs rec
    by_cases h : segOk env = true
    · rcases record_of_segOk failAt conv env cbs stamp waitedMs rec h with ⟨w, _, _, heq⟩
      rw [heq]
      simp
    · simp only [Bool.not_eq_true] at h
      have hres := (record_of_segFail failAt conv env cbs stamp waitedMs rec h).1
      rw [hres]
      intro hcontra
      exact segError_ne_unwrapPanic env (by injection hcontra)
  · intro failAt conv env cbs stamp segStop secs rec
    by_cases h : segOk env = true
    · rcases record_secs_of_segOk failAt conv env cbs stamp segStop secs rec h with
        ⟨w, _, _, heq⟩
      rw [heq]
      simp
    · simp only [Bool.not_eq_true] at h
      have hres := (record_secs_of_segFail failAt conv env cbs stamp segStop secs rec h).1
      rw [hres]
      intro hcontra
      exact segError_ne_unwrapPanic env (by injection hcontra)

/-- C2: on every exit path of `record` and `record_secs` — early error
returns, the panic path, finalize failure or normal completion — the
hardware stream is dropped strictly before the sink's encoder is removed
and finalized: in every possible event trace, a `sinkFinalize` event only
occurs after a `streamDrop` event. -/
theorem C2_stream_teardown_before_finalize :
    (∀ (failAt : Nat → Bool) (conv : Int → Int) (env : SegEnv)
       (cbs : List (List Int × Bool)) (stamp waitedMs : Nat) (rec : Recorder),
       dropBeforeFinalize (record failAt conv env cbs stamp waitedMs rec).events = true) ∧
    (∀ (failAt : Nat → Bool) (conv : Int → Int) (env : SegEnv)
       (cbs : List (List Int × Bool)) (stamp : Nat) (segStop : Nat → Bool)
       (secs : Nat) (rec : Recorder),
       dropBeforeFinalize
         (record_secs failAt conv env cbs stamp segStop secs rec).events = true) := by
  constructor
  · intro failAt conv env cbs stamp waitedMs rec
    unfold record init_writer
    by_cases hc : env.createOk
    · by_cases hb : env.buildOk
      · by_cases hp : env.playOk
        · cases happ : applyCbs failAt conv cbs
              (some ⟨get_filename rec.name rec.path stamp, rec.spec, []⟩) with
          | none =>
            simp only [hc, hb, hp, if_true, Bool.true_eq_false, if_false,
              ite_false, ite_true]
            simp only [happ]
            decide
          | some w =>
            by_cases hf : env.finalizeOk
            · simp only [hc, hb, hp, hf, if_true, Bool.true_eq_false, if_false,
                ite_false, ite_true]
              simp only [happ]
              decide
            · simp only [hc, hb, hp, if_true, Bool.true_eq_false, if_false,
                ite_false, ite_true]
              simp only [happ, hf]
              rfl
        · simp only [Bool.not_eq_true] at hp
          simp [hc, hb, hp]
          decide
      · simp only [Bool.not_eq_true] at hb
        simp [hc, hb]
        decide
    · simp only [Bool.not_eq_true] at hc
      simp [hc]
      decide
  · intro failAt conv env cbs stamp segStop secs rec
    unfold record_secs init_writer
    by_cases hc : env.createOk
    · by_cases hb : env.buildOk
      · by_cases hp : env.playOk
        · cases happ : applyCbs failAt conv cbs
              (some ⟨get_filename rec.name rec.path stamp, rec.spec, []⟩) with
          | none =>
            simp only [hc, hb, hp, if_true, Bool.true_eq_false, if_false,
              ite_false, ite_true]
            simp only [happ]
            decide
          | some w =>
            by_cases hf : env.finalizeOk
            · simp only [hc, hb, hp, hf, if_true, Bool.true_eq_false, if_false,
                ite_false, ite_true]
              simp only [happ]
              decide
            · simp only [hc, hb, hp, if_true, Bool.true_eq_false, if_false,
                ite_false, ite_true]
              simp only [happ, hf]
              rfl
        · simp only [Bool.not_eq_true] at hp
          simp [hc, hb, hp]
          decide
      · simp only [Bool.not_eq_true] at hb
        simp [hc, hb]
        decide
    · simp only [Bool.not_eq_true] at hc
      simp [hc]
      decide

/-- C1 counterexample: `record_for(duration=10s)` with the segment-stop
signal set from T = 2 s on.  The claim says the segment ends at
approximately 2 s (within the 500 ms polling interval, so by 2500 ms); the
code's wait loop never reads the signal, and the produced file's segment
length is the full 10000 ms. -/
theorem C1_cex_stop_signal_ignored :
    (record_secs noWriteFail (fun s => s) envAllOk [] 0 stopAtTwoSecs 10
        rec0).file.map FileRecord.durationMs = some 10000 ∧
    ¬ (10000 ≤ 2000 + 500) := by
  constructor
  · rfl
  · decide

/-- C1 amended: the wait of `record_secs` polls at a fixed 500 ms interval
but checks only the elapsed time — the segment-stop signal is never
consulted, so the outcome is identical for any two signal histories, and
the produced segment always lasts the full requested duration rounded up
to the polling interval (at least one interval), never less. -/
theorem C1_amended_full_duration :
    ∀ (failAt : Nat → Bool) (conv : Int → Int) (cbs : List (List Int × Bool))
      (stamp secs : Nat) (rec : Recorder) (s1 s2 : Nat → Bool),
      record_secs failAt conv envAllOk cbs stamp s1 secs rec =
        record_secs failAt conv envAllOk cbs stamp s2 secs rec ∧
      (record_secs failAt conv envAllOk cbs stamp s1 secs rec).file.map
        FileRecord.durationMs = some (500 * max 1 (2 * secs)) := by
  intro failAt conv cbs stamp secs rec s1 s2
  constructor
  · rfl
  · rcases record_secs_of_segOk failAt conv envAllOk cbs stamp s1 secs rec rfl with
      ⟨w, _, _, heq⟩
    rw [heq]
    simp [segmentPolls_eq]

/-- C4 counterexample: stream building fails after `init_writer` installed
the encoder.  The claim says the encoder installed for the failed segment
is finalized (or its finalize failure reported) as part of the error
return; in fact the error propagates with the encoder still sitting in the
sink slot, un-finalized. -/
theorem C4_cex_writer_left_installed :
    (record noWriteFail (fun s => s) envBuildFail [] 0 0 rec0).res =
      Except.error RecError.streamBuild ∧
    (record noWriteFail (fun s => s) envBuildFail [] 0 0 rec0).recorder.writer ≠
      none := by
  constructor
  · rfl
  · decide

/-- C4 amended: a fatal error during `record` / `record_secs` aborts the
operation and propagates to the caller, and a finalize failure is itself
reported (with the encoder removed from the slot by `take()`); but when
stream creation fails after the encoder was installed, the encoder is left
open in the sink slot, not finalized — it is only replaced by the next
segment's `init_writer`. -/
theorem C4_amended_error_paths (failAt : Nat → Bool) (conv : Int → Int)
    (env env2 : SegEnv) (cbs : List (List Int × Bool)) (stamp waitedMs : Nat)
    (segStop : Nat → Bool) (secs : Nat) (rec : Recorder)
    (hc : env.createOk = true) (hb : env.buildOk = false)
    (h2c : env2.createOk = true) (h2b : env2.buildOk = true)
    (h2p : env2.playOk = true) (h2f : env2.finalizeOk = false) :
    ((record failAt conv env cbs stamp waitedMs rec).res =
        Except.error RecError.streamBuild ∧
     (record failAt conv env cbs stamp waitedMs rec).recorder.writer =
        some { filename := get_filename rec.name rec.path stamp, spec := rec.spec,
               samples := [] } ∧
     (record_secs failAt conv env cbs stamp segStop secs rec).res =
        Except.error RecError.streamBuild ∧
     (record_secs failAt conv env cbs stamp segStop secs rec).recorder.writer =
        some { filename := get_filename rec.name rec.path stamp, spec := rec.spec,
               samples := [] }) ∧
    ((record failAt conv env2 cbs stamp waitedMs rec).res =
        Except.error RecError.finalize ∧
     (record failAt conv env2 cbs stamp waitedMs rec).recorder.writer = none) := by
  constructor
  · refine ⟨?_, ?_, ?_, ?_⟩
    · unfold record init_writer
      simp [hc, hb]
    · unfold record init_writer
      simp [hc, hb]
    · unfold record_secs init_writer
      simp [hc, hb]
    · unfold record_secs init_writer
      simp [hc, hb]
  · rcases applyCbs_some failAt conv cbs
        ⟨get_filename rec.name rec.path stamp, rec.spec, []⟩ with ⟨w, hw, _, _⟩
    unfold record init_writer
    simp only [h2c, h2b, h2p, h2f, if_true, Bool.true_eq_false, if_false,
      ite_false, ite_true]
    simp only [hw]
    simp

/-- Witness for the amended C4 at a concrete input. -/
theorem C4_amended_witness :
    ((record noWriteFail (fun s => s) envBuildFail [] 0 0 rec0).res =
        Except.error RecError.streamBuild ∧
     (record noWriteFail (fun s => s) envBuildFail [] 0 0 rec0).recorder.writer =
        some { filename := get_filename rec0.name rec0.path 0, spec := rec0.spec,
               samples := [] } ∧
     (record_secs noWriteFail (fun s => s) envBuildFail [] 0 (fun _ => false) 1
        rec0).res = Except.error RecError.streamBuild ∧
     (record_secs noWriteFail (fun s => s) envBuildFail [] 0 (fun _ => false) 1
        rec0).recorder.writer =
        some { filename := get_filename rec0.name rec0.path 0, spec := rec0.spec,
               samples := [] }) ∧
    ((record noWriteFail (fun s => s)
        { createOk := true, buildOk := true, playOk := true, finalizeOk := false }
        [] 0 0 rec0).res = Except.error RecError.finalize ∧
     (record noWriteFail (fun s => s)
        { createOk := true, buildOk := true, playOk := true, finalizeOk := false }
        [] 0 0 rec0).recorder.writer = none) :=
  C4_amended_error_paths noWriteFail (fun s => s) envBuildFail
    { createOk := true, buildOk := true, playOk := true, finalizeOk := false }
    [] 0 0 (fun _ => false) 1 rec0 rfl rfl rfl rfl rfl rfl

theorem batch_spec_preserved (failAt : Nat → Bool) (conv : Int → Int)
    (envs : Nat → SegEnv) (cbs : Nat → List (List Int × Bool))
    (running segStop : Nat → Bool) (secs : Nat) :
    ∀ (fuel i : Nat) (rec : Recorder),
      (batch_recording failAt conv envs cbs running segStop secs fuel i
        rec).recorder.spec = rec.spec ∧
      (batch_recording failAt conv envs cbs running segStop secs fuel i
        rec).files.all (fun f => decide (f.spec = rec.spec)) = true := by
  intro fuel
  induction fuel with
  | zero => intro i rec; exact ⟨rfl, rfl⟩
  | succ f ih =>
    intro i rec
    unfold batch_recording
    by_cases hrun : running i
    · simp only [hrun, if_true]
      by_cases hseg : segOk (envs i) = true
      · rcases record_secs_of_segOk failAt conv (envs i) (cbs i) i segStop secs rec hseg
          with ⟨w, hwf, hws, heq⟩
        rw [heq]
        rcases ih (i + 1)
            { rec with current_file := get_filename rec.name rec.path i, writer := none }
          with ⟨ihspec, ihall⟩
        constructor
        · simpa using ihspec
        · simp only [Option.toList_some, List.all_cons, List.all_append]
          simp [hws, ihall]
      · simp only [Bool.not_eq_true] at hseg
        rcases record_secs_of_segFail failAt conv (envs i) (cbs i) i segStop secs rec hseg
          with ⟨hres, hfile⟩
        rw [hres]
        constructor
        · exact record_secs_spec_preserved failAt conv (envs i) (cbs i) i segStop secs rec
        · simp [hfile]
    · simp [hrun]

/-- C7: the WAV spec is computed exactly once during `init` (from the
device default and user configurations) and is never mutated afterwards:
`record`, `record_secs` and `batch_recording` all leave the recorder's
`spec` field unchanged, and every file any of them produces is created
with exactly that spec in its header. -/
theorem C7_one_wav_spec_per_recorder :
    (∀ (args : InitArgs) (env : InitEnv),
       (init args env).toOption.map Recorder.spec =
         (if initOk env then
           some (get_wav_spec env.defaultConfig
             (get_user_config args.sample_rate args.channels args.buffer_size))
         else none)) ∧
    (∀ (failAt : Nat → Bool) (conv : Int → Int) (env : SegEnv)
       (cbs : List (List Int × Bool)) (stamp waitedMs : Nat) (rec : Recorder),
       (record failAt conv env cbs stamp waitedMs rec).recorder.spec = rec.spec ∧
       (record failAt conv env cbs stamp waitedMs rec).file.map FileRecord.spec =
         (if segOk env then some rec.spec else none)) ∧
    (∀ (failAt : Nat → Bool) (conv : Int → Int) (env : SegEnv)
       (cbs : List (List Int × Bool)) (stamp : Nat) (segStop : Nat → Bool)
       (secs : Nat) (rec : Recorder),
       (record_secs failAt conv env cbs stamp segStop secs rec).recorder.spec
         = rec.spec ∧
       (record_secs failAt conv env cbs stamp segStop secs rec).file.map
         FileRecord.spec = (if segOk env then some rec.spec else none)) ∧
    (∀ (failAt : Nat → Bool) (conv : Int → Int) (envs : Nat → SegEnv)
       (cbs : Nat → List (List Int × Bool)) (running segStop : Nat → Bool)
       (secs fuel i : Nat) (rec : Recorder),
       (batch_recording failAt conv envs cbs running segStop secs fuel i
         rec).recorder.spec = rec.spec ∧
       (batch_recording failAt conv envs cbs running segStop secs fuel i
         rec).files.all (fun f => decide (f.spec = rec.spec)) = true) := by
  refine ⟨?_, ?_, ?_, ?_⟩
  · intro args env
    obtain ⟨i, ho, d, df, u, sp, dev, dc⟩ := env
    cases i <;> cases ho <;> cases d <;> cases df <;> cases u <;> cases sp <;> rfl
  · intro failAt conv env cbs stamp waitedMs rec
    by_cases hseg : segOk env = true
    · rcases record_of_segOk failAt conv env cbs stamp waitedMs rec hseg with
        ⟨w, hwf, hws, heq⟩
      rw [heq]
      simp [hseg, hws]
    · simp only [Bool.not_eq_true] at hseg
      rcases record_of_segFail failAt conv env cbs stamp waitedMs rec hseg with
        ⟨hres, hfile⟩
      refine ⟨record_spec_preserved failAt conv env cbs stamp waitedMs rec, ?_⟩
      simp [hfile, hseg]
  · intro failAt conv env cbs stamp segStop secs rec
    by_cases hseg : segOk env = true
    · rcases record_secs_of_segOk failAt conv env cbs stamp segStop secs rec hseg with
        ⟨w, hwf, hws, heq⟩
      rw [heq]
      simp [hseg, hws]
    · simp only [Bool.not_eq_true] at hseg
      rcases record_secs_of_segFail failAt conv env cbs stamp segStop secs rec hseg with
        ⟨hres, hfile⟩
      refine ⟨record_secs_spec_preserved failAt conv env cbs stamp segStop secs rec, ?_⟩
      simp [hfile, hseg]
  · intro failAt conv envs cbs running segStop secs fuel i rec
    exact batch_spec_preserved failAt conv envs cbs running segStop secs fuel i rec

/-- C8: `Recorder::init` is all-or-nothing: a `Recorder` value is
constructed exactly when every one of the six fallible steps
(interrupt-handle setup, host selection, device selection, default-config
retrieval, user-config construction, WAV-spec derivation) succeeds; any
failure makes `init` return the error of the first failing step and no
recorder, leaving no partial state. -/
theorem C8_init_all_or_nothing :
    ∀ (args : InitArgs) (env : InitEnv),
      (init args env).toOption.isSome = initOk env := by
  intro args env
  obtain ⟨i, ho, d, df, u, sp, dev, dc⟩ := env
  cases i <;> cases ho <;> cases d <;> cases df <;> cases u <;> cases sp <;> rfl

/-- C5: `batch_recording` checks the batch-stop state only between
iterations, so no segment is ever cut short by the batch-stop signal:
whenever every iteration's external steps succeed, the loop returns ok,
runs exactly one complete iteration per `true` of the running check (one
finalized file each), and every produced file has the full timed-segment
duration, regardless of the running signal's history. -/
theorem C5_batch_segments_complete (failAt : Nat → Bool) (conv : Int → Int)
    (envs : Nat → SegEnv) (cbs : Nat → List (List Int × Bool))
    (running segStop : Nat → Bool) (secs : Nat)
    (henv : ∀ j, segOk (envs j) = true) :
    ∀ (fuel i : Nat) (rec : Recorder),
      (batch_recording failAt conv envs cbs running segStop secs fuel i rec).res =
        Except.ok () ∧
      (batch_recording failAt conv envs cbs running segStop secs fuel i
        rec).files.length = batchIterations running fuel i ∧
      (batch_recording failAt conv envs cbs running segStop secs fuel i
        rec).files.all (fun f => decide (f.durationMs = 500 * max 1 (2 * secs)))
        = true := by
  intro fuel
  induction fuel with
  | zero => intro i rec; exact ⟨rfl, rfl, rfl⟩
  | succ f ih =>
    intro i rec
    unfold batch_recording batchIterations
    by_cases hrun : running i
    · simp only [hrun, if_true]
      rcases record_secs_of_segOk failAt conv (envs i) (cbs i) i segStop secs rec (henv i)
        with ⟨w, hwf, hws, heq⟩
      rw [heq]
      rcases ih (i + 1)
          { rec with current_file := get_filename rec.name rec.path i, writer := none }
        with ⟨ihres, ihlen, ihall⟩
      refine ⟨ihres, ?_, ?_⟩
      · simp [ihlen]
      · simp only [Option.toList_some, List.all_cons, List.all_append]
        simp [ihall, segmentPolls_eq]
    · simp [hrun]

/-- Witness for C5 at a concrete input: two iterations run before the
batch check sees the stop, both files complete. -/
theorem C5_witness :
    (batch_recording noWriteFail (fun s => s) (fun _ => envAllOk) (fun _ => [])
        (fun i => decide (i < 2)) (fun _ => false) 1 3 0 rec0).res =
      Except.ok () ∧
    (batch_recording noWriteFail (fun s => s) (fun _ => envAllOk) (fun _ => [])
        (fun i => decide (i < 2)) (fun _ => false) 1 3 0 rec0).files.length =
      batchIterations (fun i => decide (i < 2)) 3 0 ∧
    (batch_recording noWriteFail (fun s => s) (fun _ => envAllOk) (fun _ => [])
        (fun i => decide (i < 2)) (fun _ => false) 1 3 0 rec0).files.all
      (fun f => decide (f.durationMs = 500 * max 1 (2 * 1))) = true :=
  C5_batch_segments_complete noWriteFail (fun s => s) (fun _ => envAllOk)
    (fun _ => []) (fun i => decide (i < 2)) (fun _ => false) 1 (fun _ => rfl)
    3 0 rec0

/-- C6: if an iteration of `batch_recording` fails, the error propagates
immediately out of the whole loop: with the batch signal still running,
when the first `k` iterations succeed and iteration `k` fails, the batch
returns exactly iteration `k`'s error and the produced files are exactly
the `k` complete earlier ones — the loop never skips a failed segment and
continues. -/
theorem C6_batch_error_propagates (failAt : Nat → Bool) (conv : Int → Int)
    (envs : Nat → SegEnv) (cbs : Nat → List (List Int × Bool))
    (segStop : Nat → Bool) (secs : Nat) :
    ∀ (k fuel i : Nat) (rec : Recorder),
      (∀ j, j < k → segOk (envs (i + j)) = true) →
      segOk (envs (i + k)) = false →
      k < fuel →
      (batch_recording failAt conv envs cbs (fun _ => true) segStop secs fuel i
        rec).res = Except.error (segError (envs (i + k))) ∧
      (batch_recording failAt conv envs cbs (fun _ => true) segStop secs fuel i
        rec).files.length = k := by
  intro k
  induction k with
  | zero =>
    intro fuel i rec hpre hfail hlt
    cases fuel with
    | zero => omega
    | succ f =>
      unfold batch_recording
      rcases record_secs_of_segFail failAt conv (envs i) (cbs i) i segStop secs rec
          (by simpa using hfail) with ⟨hres, hfile⟩
      simp [hres, hfile]
  | succ k ih =>
    intro fuel i rec hpre hfail hlt
    cases fuel with
    | zero => omega
    | succ f =>
      unfold batch_recording
      have h0 : segOk (envs i) = true := by
        have := hpre 0 (Nat.succ_pos k)
        simpa using this
      rcases record_secs_of_segOk failAt conv (envs i) (cbs i) i segStop secs rec h0
        with ⟨w, hwf, hws, heq⟩
      rw [heq]
      have harith : ∀ j, j < k → segOk (envs (i + 1 + j)) = true := by
        intro j hj
        have h := hpre (j + 1) (by omega)
        have e : i + (j + 1) = i + 1 + j := by omega
        rw [e] at h
        exact h
      have hfail' : segOk (envs (i + 1 + k)) = false := by
        have e : i + (k + 1) = i + 1 + k := by omega
        rw [e] at hfail
        exact hfail
      rcases ih f (i + 1)
          { rec with current_file := get_filename rec.name rec.path i, writer := none }
          harith hfail' (by omega)
        with ⟨ihres, ihlen⟩
      have e2 : i + 1 + k = i + (k + 1) := by omega
      rw [e2] at ihres
      refine ⟨?_, ?_⟩
      · simpa using ihres
      · simp [ihlen]

/-- Witness for C6 at a concrete input: iterations 0 and 1 succeed,
iteration 2 fails at stream building; the loop stops with that error and
two complete files. -/
theorem C6_witness :
    (batch_recording noWriteFail (fun s => s)
        (fun n => if n = 2 then envBuildFail else envAllOk) (fun _ => [])
        (fun _ => true) (fun _ => false) 1 5 0 rec0).res =
      Except.error (segError ((fun n => if n = 2 then envBuildFail else envAllOk)
        (0 + 2))) ∧
    (batch_recording noWriteFail (fun s => s)
        (fun n => if n = 2 then envBuildFail else envAllOk) (fun _ => [])
        (fun _ => true) (fun _ => false) 1 5 0 rec0).files.length = 2 :=
  C6_batch_error_propagates noWriteFail (fun s => s)
    (fun n => if n = 2 then envBuildFail else envAllOk) (fun _ => [])
    (fun _ => false) 1 2 5 0 rec0 (by decide) (by decide) (by decide)

/-- C10: when the batch-level stop signal is already set at the first
check, the loop body of `batch_recording` never runs: zero files are
produced, the result is ok, and the recorder state (sink slot, current
filename and all) is returned unchanged. -/
theorem C10_batch_noop_when_stopped (failAt : Nat → Bool) (conv : Int → Int)
    (envs : Nat → SegEnv) (cbs : Nat → List (List Int × Bool))
    (running segStop : Nat → Bool) (secs fuel : Nat) (rec : Recorder)
    (h : running 0 = false) :
    batch_recording failAt conv envs cbs running segStop secs (fuel + 1) 0 rec =
      { res := Except.ok (), recorder := rec, files := [] } := by
  unfold batch_recording
  simp [h]

/-- Witness for C10 at a concrete input. -/
theorem C10_witness :
    batch_recording noWriteFail (fun s => s) (fun _ => envAllOk) (fun _ => [])
        (fun _ => false) (fun _ => false) 1 1 0 rec0 =
      { res := Except.ok (), recorder := rec0, files := [] } :=
  C10_batch_noop_when_stopped noWriteFail (fun s => s) (fun _ => envAllOk)
    (fun _ => []) (fun _ => false) (fun _ => false) 1 0 rec0 rfl

end AudioLogger


